import Mathlib

/-!
Shallow embedding of the request-dispatch core of an SFTP request server
(request-server.go).  The registry (the `openRequests` map) and its three
operations (`nextRequest`, `getRequest`, `closeRequest`), the worker body
(`packetWorker`, lines 121-164) and the session loop (`Serve`, lines 93-119)
are translated from the source.  Collaborators of the repository that live
outside this source file (the codec's `makePacket`, `recvPacket`,
`newRequest`, `populate`, `handleRequest`, `statusFromError`, the protocol
constants) are modelled from the specification; their doc comments say so.
The embedding is sequential: one worker step processes one decoded packet
against the registry, and a session is a reader pass producing the queue
followed by a worker pass draining it.
-/

/-- Modelled from the spec: the protocol version carried by the
version-negotiation reply (`sftpProtocolVersion`, declared outside this
source file). -/
def sftpProtocolVersion : Nat := 3

/-- Modelled from the spec: the numeric value of `syscall.EBADF` (bad file
descriptor), the cause code for lookups of unknown handles. -/
def EBADF : Nat := 9

/-- Modelled from the spec: a generic invalid-request cause code used for
packets no capability applies to. -/
def EINVAL : Nat := 22

/-- Which Handler Set capability a handle-bearing packet implies. -/
inductive DataOp
  | get
  | put
deriving DecidableEq

/-- Which Handler Set capability a path-bearing (non-open) packet implies. -/
inductive PathOp
  | cmd
  | info
deriving DecidableEq

/-- A decoded protocol message, by the role categories of the dispatch switch
of `packetWorker`: session-init, open-like (open / opendir), close,
handle-bearing, path-bearing, and the unmatched remainder. -/
inductive Packet
  | initPkt (version : Nat)
  | openPkt (id : Nat) (path : String)
  | opendirPkt (id : Nat) (path : String)
  | closePkt (id : Nat) (handle : String)
  | handlePkt (id : Nat) (handle : String) (op : DataOp)
  | pathPkt (id : Nat) (path : String) (op : PathOp)
  | otherPkt (id : Nat)
deriving DecidableEq

/-- The request identifier of a packet; the init packet carries none. -/
def Packet.reqId : Packet → Option Nat
  | Packet.initPkt _ => none
  | Packet.openPkt id _ => some id
  | Packet.opendirPkt id _ => some id
  | Packet.closePkt id _ => some id
  | Packet.handlePkt id _ _ => some id
  | Packet.pathPkt id _ _ => some id
  | Packet.otherPkt id => some id

/-- Server-side state for one open resource: the originating path
(`Filepath`) plus the per-call context stored by `populate`. -/
structure Request where
  filepath : String
  curPkt : Option Packet
deriving DecidableEq

/-- Modelled from the spec: `newRequest` (request.go, absent from the given
source) builds the Request for a path; the handle is derived "directly and
deterministically from the requested path", so the Request stores the
requested path verbatim. -/
def newRequest (path : String) : Request :=
  { filepath := path, curPkt := none }

/-- Modelled from the spec: `Request.populate` (request.go, absent from the
given source) mutates the Request with the packet's per-call context. -/
def populate (r : Request) (pkt : Packet) : Request :=
  { r with curPkt := some pkt }

/-- Cause code of a status reply: success, or a failure code. -/
inductive StatusCode
  | ok
  | errCode (e : Nat)
deriving DecidableEq

/-- The reply vocabulary this core emits: version negotiation, handle
acknowledgement, generic status, data, and listing replies. -/
inductive Reply
  | versionRep (version : Nat)
  | handleRep (id : Nat) (handle : String)
  | statusRep (id : Nat) (code : StatusCode)
  | dataRep (id : Nat) (data : List Nat)
  | nameRep (id : Nat) (names : List String)
deriving DecidableEq

/-- Modelled from the spec: `statusFromError` (absent from the given source)
builds the generic status reply — success on a nil error, the failure cause
code otherwise — carrying the packet's request identifier. -/
def statusFromError (pkt : Packet) (e : Option Nat) : Reply :=
  match e with
  | none => Reply.statusRep (pkt.reqId.getD 0) StatusCode.ok
  | some n => Reply.statusRep (pkt.reqId.getD 0) (StatusCode.errCode n)

/-- The Handler Set: the four independently pluggable capabilities of the
source's `Handlers` struct, each modelled as a function returning a result or
an error code. -/
structure Handlers where
  fileGet : Request → Except Nat (List Nat)
  filePut : Request → Except Nat Unit
  fileCmd : Request → Except Nat Unit
  fileInfo : Request → Except Nat (List String)

/-- Modelled from the spec: `Request.handleRequest` (request.go, absent from
the given source) invokes the single capability the current packet's kind
implies and yields a reply carrying that packet's request identifier; a
capability error propagates to the caller.  It receives only the Handler Set,
so it cannot touch the registry. -/
def handleRequest (hs : Handlers) (r : Request) : Except Nat Reply :=
  match r.curPkt with
  | some (Packet.handlePkt id _ DataOp.get) =>
      (hs.fileGet r).map (fun d => Reply.dataRep id d)
  | some (Packet.handlePkt id _ DataOp.put) =>
      (hs.filePut r).map (fun _ => Reply.statusRep id StatusCode.ok)
  | some (Packet.pathPkt id _ PathOp.cmd) =>
      (hs.fileCmd r).map (fun _ => Reply.statusRep id StatusCode.ok)
  | some (Packet.pathPkt id _ PathOp.info) =>
      (hs.fileInfo r).map (fun ns => Reply.nameRep id ns)
  | _ => Except.error EINVAL

/-- The `openRequests` map from handle to in-flight Request, modelled as an
association list with unique keys. -/
abbrev Registry := List (String × Request)

def mapLookup : Registry → String → Option Request
  | [], _ => none
  | (k2, v) :: rest, k => if k2 = k then some v else mapLookup rest k

def mapErase : Registry → String → Registry
  | [], _ => []
  | (k2, v) :: rest, k =>
      if k2 = k then mapErase rest k else (k2, v) :: mapErase rest k

/-- Go map assignment `m[k] = v`: binds `k` to `v`, overwriting any previous
binding for `k`. -/
def mapInsert (m : Registry) (k : String) (v : Request) : Registry :=
  (k, v) :: mapErase m k

/-- Lines 70-75: store the Request under the handle derived from its path and
return that handle (the path itself). -/
def nextRequest (st : Registry) (r : Request) : Registry × String :=
  (mapInsert st r.filepath r, r.filepath)

/-- Lines 77-82: look the handle up in the registry. -/
def getRequest (st : Registry) (handle : String) : Option Request :=
  mapLookup st handle

/-- Lines 84-90: delete the handle's entry if present; no-op otherwise. -/
def closeRequest (st : Registry) (handle : String) : Registry :=
  match mapLookup st handle with
  | some _ => mapErase st handle
  | none => st

/-- Lines 154-161: the common tail of the worker body for handle-bearing,
path-bearing and unmatched packets.  When the lookup fails, the source builds
an EBADF status (line 155) but lines 156-157 still run: they call `populate`
and `handleRequest` through the nil `*Request`, which dereferences a nil
pointer (and would in any case overwrite the EBADF status); that fault is
modelled as `none`.  When the lookup succeeds, the Request is populated (the
map holds a pointer, so the stored entry is updated too) and the Handler Set
is invoked; a handler error becomes a status reply. -/
def handleDispatch (hs : Handlers) (st : Registry) (pkt : Packet)
    (handle : String) : Option (Registry × Reply) :=
  match getRequest st handle with
  | none => none
  | some r =>
      let r2 := populate r pkt
      let st2 := mapInsert st handle r2
      match handleRequest hs r2 with
      | Except.ok rep => some (st2, rep)
      | Except.error e => some (st2, statusFromError pkt (some e))

/-- Lines 122-162: one iteration of the worker loop on one decoded packet,
returning the updated registry and the reply written to the Transport, or
`none` when the iteration faults on a missing Request. -/
def packetWorkerStep (hs : Handlers) (st : Registry) (pkt : Packet) :
    Option (Registry × Reply) :=
  match pkt with
  | Packet.initPkt _ => some (st, Reply.versionRep sftpProtocolVersion)
  | Packet.openPkt id path =>
      let n := nextRequest st (newRequest path)
      some (n.1, Reply.handleRep id n.2)
  | Packet.opendirPkt id path =>
      let n := nextRequest st (newRequest path)
      some (n.1, Reply.handleRep id n.2)
  | Packet.closePkt id handle =>
      some (closeRequest st handle,
        statusFromError (Packet.closePkt id handle) none)
  | Packet.handlePkt id handle op =>
      handleDispatch hs st (Packet.handlePkt id handle op) handle
  | Packet.pathPkt id path op =>
      let n := nextRequest st (newRequest path)
      handleDispatch hs n.1 (Packet.pathPkt id path op) n.2
  | Packet.otherPkt id => handleDispatch hs st (Packet.otherPkt id) ""

/-- Lines 121-164: a worker draining the closed queue; the Bool records
whether the worker died on a missing-Request fault before finishing. -/
def packetWorker (hs : Handlers) :
    Registry → List Packet → Registry × List Reply × Bool
  | st, [] => (st, [], false)
  | st, pkt :: rest =>
      match packetWorkerStep hs st pkt with
      | none => (st, [], true)
      | some (st2, rep) =>
          let r := packetWorker hs st2 rest
          (r.1, rep :: r.2.1, r.2.2)

/-- Modelled from the spec's Transport contract: the distinguished error
value io.EOF that `recvPacket` (outside the given source) yields when the
peer cleanly ends the stream.  To the read loop it is an ordinary non-nil
error: line 110 breaks on it and line 118 returns it. -/
def ioEOF : Nat := 1

/-- One outcome of a `recvPacket` plus `makePacket` round in the Session
Loop: a decoded packet, a decode failure, or a non-nil `recvPacket` error.
A clean peer-initiated end of stream arrives as `readErrEv ioEOF` — the loop
has no error-free exit. -/
inductive RecvEvent
  | pktEv (p : Packet)
  | decodeErrEv (e : Nat)
  | readErrEv (e : Nat)
deriving DecidableEq

/-- Lines 105-114: the Session Loop's read phase; returns the packets fed to
the queue and the error held by the outer `err` variable when the loop
breaks.  On a decode failure the loop breaks, but line 111
(`pkt, err := makePacket(...)`) declares a fresh inner `err`, so the outer
`err` — nil after the successful `recvPacket` — is what `Serve` later
returns. -/
def serveReader : List RecvEvent → List Packet × Option Nat
  | [] => ([], none)
  | RecvEvent.pktEv p :: rest =>
      let r := serveReader rest
      (p :: r.1, r.2)
  | RecvEvent.decodeErrEv _ :: _ => ([], none)
  | RecvEvent.readErrEv e :: _ => ([], some e)

/-- Lines 93-119: serve a session.  Sequential model: the read phase produces
the queue and the recorded error; closing the queue then lets the workers
drain it completely; `Serve` returns after that drain, with the recorded
error. -/
def Serve (hs : Handlers) (events : List RecvEvent) :
    (Registry × List Reply × Bool) × Option Nat :=
  let rd := serveReader events
  (packetWorker hs [] rd.1, rd.2)

/-- A concrete Handler Set whose capabilities all succeed with empty
results. -/
def handlersStub : Handlers :=
  { fileGet := fun _ => Except.ok [],
    filePut := fun _ => Except.ok (),
    fileCmd := fun _ => Except.ok (),
    fileInfo := fun _ => Except.ok [] }

/-- Does this packet register (or re-register) the given handle: is it an
open-like or path-bearing packet whose path equals the handle? -/
def registersPath : Packet → String → Bool
  | Packet.openPkt _ p, h => decide (p = h)
  | Packet.opendirPkt _ p, h => decide (p = h)
  | Packet.pathPkt _ p _, h => decide (p = h)
  | _, _ => false

/-- Does this packet name the given handle in a close? -/
def closesHandle : Packet → String → Bool
  | Packet.closePkt _ k, h => decide (k = h)
  | _, _ => false

/-- Looking up the key just inserted finds the inserted value. -/
theorem mapLookup_insert_self (m : Registry) (k : String) (v : Request) :
    mapLookup (mapInsert m k v) k = some v := by
  simp [mapInsert, mapLookup]

/-- Erasing a key removes it from lookup. -/
theorem mapLookup_erase_self (m : Registry) (k : String) :
    mapLookup (mapErase m k) k = none := by
  induction m with
  | nil => rfl
  | cons kv rest ih =>
      obtain ⟨k2, v⟩ := kv
      by_cases h : k2 = k
      · simpa [mapErase, h] using ih
      · simp [mapErase, mapLookup, h, ih]

/-- Erasing one key leaves lookups of other keys unchanged. -/
theorem mapLookup_erase_ne (m : Registry) (k h : String) (hne : k ≠ h) :
    mapLookup (mapErase m k) h = mapLookup m h := by
  induction m with
  | nil => rfl
  | cons kv rest ih =>
      obtain ⟨k2, v⟩ := kv
      by_cases hk : k2 = k
      · subst hk
        have : k2 ≠ h := hne
        simp [mapErase, mapLookup, this, ih]
      · by_cases hh : k2 = h
        · simp [mapErase, mapLookup, hk, hh, Ne.symm hne]
        · simp [mapErase, mapLookup, hk, hh, ih]

/-- Inserting one key leaves lookups of other keys unchanged. -/
theorem mapLookup_insert_ne (m : Registry) (k h : String) (v : Request)
    (hne : k ≠ h) :
    mapLookup (mapInsert m k v) h = mapLookup m h := by
  simp [mapInsert, mapLookup, hne, mapLookup_erase_ne m k h hne]

/-- Insertion never removes a present key. -/
theorem mapLookup_insert_isSome (m : Registry) (k h : String) (v : Request)
    (hp : (mapLookup m h).isSome = true) :
    (mapLookup (mapInsert m k v) h).isSome = true := by
  by_cases hk : k = h
  · subst hk; simp [mapLookup_insert_self]
  · simpa [mapLookup_insert_ne m k h v hk] using hp

/-- Erasing a key never adds a key: an absent key stays absent. -/
theorem mapLookup_erase_of_none (m : Registry) (k h : String)
    (habs : mapLookup m h = none) :
    mapLookup (mapErase m k) h = none := by
  by_cases hk : k = h
  · subst hk; exact mapLookup_erase_self m k
  · rw [mapLookup_erase_ne m k h hk]; exact habs

/-- A closed handle is absent from the registry afterwards. -/
theorem mapLookup_closeRequest_self (st : Registry) (h : String) :
    mapLookup (closeRequest st h) h = none := by
  unfold closeRequest
  cases hm : mapLookup st h with
  | none => simpa using hm
  | some r => simp [mapLookup_erase_self]

/-- Closing a handle that is absent leaves the registry unchanged. -/
theorem closeRequest_absent (st : Registry) (h : String)
    (hm : mapLookup st h = none) :
    closeRequest st h = st := by
  unfold closeRequest
  rw [hm]

/-- Closing any handle never adds a key: an absent key stays absent. -/
theorem mapLookup_closeRequest_of_none (st : Registry) (k h : String)
    (habs : mapLookup st h = none) :
    mapLookup (closeRequest st k) h = none := by
  unfold closeRequest
  cases hm : mapLookup st k with
  | none => exact habs
  | some r => exact mapLookup_erase_of_none st k h habs

/-- Closing one handle leaves other present handles present. -/
theorem mapLookup_closeRequest_ne (st : Registry) (k h : String)
    (hne : k ≠ h) :
    mapLookup (closeRequest st k) h = mapLookup st h := by
  unfold closeRequest
  cases hm : mapLookup st k with
  | none => rfl
  | some r => exact mapLookup_erase_ne st k h hne

/-- A successful dispatch found a Request under the handle, and the resulting
registry is the registry with that handle rebound to the populated Request. -/
theorem handleDispatch_registry (hs : Handlers) (st : Registry) (pkt : Packet)
    (k : String) (st2 : Registry) (rep : Reply)
    (hd : handleDispatch hs st pkt k = some (st2, rep)) :
    ∃ r, getRequest st k = some r ∧ st2 = mapInsert st k (populate r pkt) := by
  cases hm : getRequest st k with
  | none => simp [handleDispatch, hm] at hd
  | some r =>
      refine ⟨r, rfl, ?_⟩
      simp only [handleDispatch, hm] at hd
      cases hh : handleRequest hs (populate r pkt) with
      | ok rep2 =>
          rw [hh] at hd
          exact (Prod.mk.injEq _ _ _ _ ▸ Option.some.inj hd).1.symm
      | error e =>
          rw [hh] at hd
          exact (Prod.mk.injEq _ _ _ _ ▸ Option.some.inj hd).1.symm

/-- Dispatch succeeds whenever the handle is present. -/
theorem handleDispatch_isSome (hs : Handlers) (st : Registry) (pkt : Packet)
    (k : String) (r : Request) (hm : getRequest st k = some r) :
    (handleDispatch hs st pkt k).isSome = true := by
  simp only [handleDispatch, hm]
  cases hh : handleRequest hs (populate r pkt) <;> simp [hh]

/-- A successful dispatch never removes an absent key's absence: a handle
absent before dispatch is absent after it. -/
theorem handleDispatch_preserves_none (hs : Handlers) (st : Registry)
    (pkt : Packet) (k : String) (st2 : Registry) (rep : Reply)
    (hd : handleDispatch hs st pkt k = some (st2, rep)) (h : String)
    (habs : mapLookup st h = none) :
    mapLookup st2 h = none := by
  obtain ⟨r, hr, hst2⟩ := handleDispatch_registry hs st pkt k st2 rep hd
  have hkh : k ≠ h := by
    intro he
    rw [he] at hr
    rw [getRequest, habs] at hr
    cases hr
  rw [hst2, mapLookup_insert_ne st k h (populate r pkt) hkh]
  exact habs

/-- A successful dispatch keeps present handles present. -/
theorem handleDispatch_preserves_isSome (hs : Handlers) (st : Registry)
    (pkt : Packet) (k : String) (st2 : Registry) (rep : Reply)
    (hd : handleDispatch hs st pkt k = some (st2, rep)) (h : String)
    (hp : (mapLookup st h).isSome = true) :
    (mapLookup st2 h).isSome = true := by
  obtain ⟨r, hr, hst2⟩ := handleDispatch_registry hs st pkt k st2 rep hd
  rw [hst2]
  exact mapLookup_insert_isSome st k h (populate r pkt) hp

/-- The reader stops at a read failure, having queued the packets decoded
before it, and records that error. -/
theorem serveReader_readErr (ps : List Packet) (e : Nat) :
    serveReader (ps.map RecvEvent.pktEv ++ [RecvEvent.readErrEv e]) =
      (ps, some e) := by
  induction ps with
  | nil => rfl
  | cons p rest ih => simp [serveReader, ih]

/-- A successful worker step on a packet that does not register the handle
`h` keeps `h` absent from the registry if it was absent before. -/
theorem step_preserves_absent (hs : Handlers) (st : Registry) (pkt : Packet)
    (st2 : Registry) (rep : Reply) (h : String)
    (hstep : packetWorkerStep hs st pkt = some (st2, rep))
    (hreg : registersPath pkt h = false)
    (habs : getRequest st h = none) :
    getRequest st2 h = none := by
  cases pkt with
  | initPkt v =>
      simp only [packetWorkerStep, Option.some.injEq, Prod.mk.injEq] at hstep
      obtain ⟨h1, -⟩ := hstep
      rw [← h1]
      exact habs
  | openPkt id p =>
      simp only [packetWorkerStep, nextRequest, newRequest, Option.some.injEq,
        Prod.mk.injEq] at hstep
      obtain ⟨h1, -⟩ := hstep
      simp only [registersPath, decide_eq_false_iff_not] at hreg
      rw [← h1]
      show mapLookup (mapInsert st p (newRequest p)) h = none
      rw [mapLookup_insert_ne st p h (newRequest p) hreg]
      exact habs
  | opendirPkt id p =>
      simp only [packetWorkerStep, nextRequest, newRequest, Option.some.injEq,
        Prod.mk.injEq] at hstep
      obtain ⟨h1, -⟩ := hstep
      simp only [registersPath, decide_eq_false_iff_not] at hreg
      rw [← h1]
      show mapLookup (mapInsert st p (newRequest p)) h = none
      rw [mapLookup_insert_ne st p h (newRequest p) hreg]
      exact habs
  | closePkt id k =>
      simp only [packetWorkerStep, Option.some.injEq, Prod.mk.injEq] at hstep
      obtain ⟨h1, -⟩ := hstep
      rw [← h1]
      exact mapLookup_closeRequest_of_none st k h habs
  | handlePkt id k op =>
      simp only [packetWorkerStep] at hstep
      exact handleDispatch_preserves_none hs st (Packet.handlePkt id k op) k
        st2 rep hstep h habs
  | pathPkt id p op =>
      simp only [packetWorkerStep, nextRequest, newRequest] at hstep
      simp only [registersPath, decide_eq_false_iff_not] at hreg
      have habs2 : mapLookup (mapInsert st p (newRequest p)) h = none := by
        rw [mapLookup_insert_ne st p h (newRequest p) hreg]
        exact habs
      exact handleDispatch_preserves_none hs (mapInsert st p (newRequest p))
        (Packet.pathPkt id p op) p st2 rep hstep h habs2
  | otherPkt id =>
      simp only [packetWorkerStep] at hstep
      exact handleDispatch_preserves_none hs st (Packet.otherPkt id) "" st2
        rep hstep h habs

/-- A successful worker step on a packet that does not close the handle `h`
keeps `h` present in the registry if it was present before. -/
theorem step_preserves_present (hs : Handlers) (st : Registry) (pkt : Packet)
    (st2 : Registry) (rep : Reply) (h : String)
    (hstep : packetWorkerStep hs st pkt = some (st2, rep))
    (hcl : closesHandle pkt h = false)
    (hp : (getRequest st h).isSome = true) :
    (getRequest st2 h).isSome = true := by
  cases pkt with
  | initPkt v =>
      simp only [packetWorkerStep, Option.some.injEq, Prod.mk.injEq] at hstep
      obtain ⟨h1, -⟩ := hstep
      rw [← h1]
      exact hp
  | openPkt id p =>
      simp only [packetWorkerStep, nextRequest, newRequest, Option.some.injEq,
        Prod.mk.injEq] at hstep
      obtain ⟨h1, -⟩ := hstep
      rw [← h1]
      exact mapLookup_insert_isSome st p h (newRequest p) hp
  | opendirPkt id p =>
      simp only [packetWorkerStep, nextRequest, newRequest, Option.some.injEq,
        Prod.mk.injEq] at hstep
      obtain ⟨h1, -⟩ := hstep
      rw [← h1]
      exact mapLookup_insert_isSome st p h (newRequest p) hp
  | closePkt id k =>
      simp only [packetWorkerStep, Option.some.injEq, Prod.mk.injEq] at hstep
      obtain ⟨h1, -⟩ := hstep
      simp only [closesHandle, decide_eq_false_iff_not] at hcl
      rw [← h1]
      show (mapLookup (closeRequest st k) h).isSome = true
      rw [mapLookup_closeRequest_ne st k h hcl]
      exact hp
  | handlePkt id k op =>
      simp only [packetWorkerStep] at hstep
      exact handleDispatch_preserves_isSome hs st (Packet.handlePkt id k op) k
        st2 rep hstep h hp
  | pathPkt id p op =>
      simp only [packetWorkerStep, nextRequest, newRequest] at hstep
      have hp2 : (mapLookup (mapInsert st p (newRequest p)) h).isSome = true :=
        mapLookup_insert_isSome st p h (newRequest p) hp
      exact handleDispatch_preserves_isSome hs (mapInsert st p (newRequest p))
        (Packet.pathPkt id p op) p st2 rep hstep h hp2
  | otherPkt id =>
      simp only [packetWorkerStep] at hstep
      exact handleDispatch_preserves_isSome hs st (Packet.otherPkt id) "" st2
        rep hstep h hp

/-- C1: the claim says a handle-bearing packet whose handle is not in the
registry yields a bad-descriptor status reply and no Handler Set invocation.
In the code the lookup failure does not stop dispatch: lines 156-157 still
call `populate` and `handleRequest` through the missing (nil) Request, so the
worker faults instead of replying — for every Handler Set, the worker step on
a read packet with an unknown handle faults. -/
theorem c1_unknown_handle_faults (hs : Handlers) :
    packetWorkerStep hs [] (Packet.handlePkt 5 "h" DataOp.get) = none := rfl

/-- C2: the claim says a decode failure stops the reader and `Serve` returns
that decode error.  The reader does stop (the third event is never consumed)
and the session shuts down after draining the one queued packet, but `Serve`
returns nil: line 111 declares a fresh inner `err`, shadowing the outer one
that `Serve` returns. -/
theorem c2_decode_error_returns_nil :
    Serve handlersStub
      [RecvEvent.pktEv (Packet.initPkt 3), RecvEvent.decodeErrEv 7,
        RecvEvent.pktEv (Packet.openPkt 1 "/a")] =
      (([], [Reply.versionRep sftpProtocolVersion], false), none) := rfl

/-- C3: the claim says `Serve` returns a nil error on a clean peer-initiated
end of stream.  The queue is indeed closed and drained and the workers are
joined before `Serve` returns (lines 116-117, the worker drain here), and a
Transport read failure does return non-nil; but a clean close can only reach
the loop as the non-nil io.EOF error from `recvPacket`, which line 110 breaks
on and line 118 returns — so `Serve` returns the non-nil io.EOF even on a
clean close, never nil. -/
theorem c3_clean_close_returns_eof :
    Serve handlersStub
      [RecvEvent.pktEv (Packet.initPkt 3), RecvEvent.readErrEv ioEOF] =
      (([], [Reply.versionRep sftpProtocolVersion], false), some ioEOF) := rfl

/-- C4: register is deterministic in the path (the handle is the path, in any
registry state), the registered handle is immediately lookupable, and two
registrations yield the same handle exactly when their paths are equal, so
distinct paths always receive distinct handles. -/
theorem c4_register_deterministic_and_injective (st st2 : Registry)
    (p q : String) :
    (nextRequest st (newRequest p)).2 = p ∧
    getRequest (nextRequest st (newRequest p)).1
      (nextRequest st (newRequest p)).2 = some (newRequest p) ∧
    ((nextRequest st (newRequest p)).2 = (nextRequest st2 (newRequest q)).2 ↔
      p = q) := by
  refine ⟨rfl, ?_, Iff.rfl⟩
  exact mapLookup_insert_self st p (newRequest p)

/-- C5: the claim says every decoded packet a worker processes produces
exactly one reply carrying the packet's request identifier.  On a write
packet whose handle is unknown, the worker instead faults on the missing
Request and writes no reply at all before dying. -/
theorem c5_unknown_handle_drops_reply :
    packetWorker handlersStub [] [Packet.handlePkt 9 "k" DataOp.put] =
      ([], [], true) := rfl

/-- C6: after a release of handle `h` the lookup of `h` reports not found,
any successful worker step that does not re-register `h` keeps it not found,
and a new register of `h` re-creates the entry. -/
theorem c6_release_then_absent_until_reregister (st : Registry) (h : String)
    (hs : Handlers) (pkt : Packet) (st2 : Registry) (rep : Reply) :
    getRequest (closeRequest st h) h = none ∧
    (packetWorkerStep hs st pkt = some (st2, rep) →
      registersPath pkt h = false → getRequest st h = none →
      getRequest st2 h = none) ∧
    getRequest (nextRequest st (newRequest h)).1 h = some (newRequest h) := by
  refine ⟨mapLookup_closeRequest_self st h, ?_, ?_⟩
  · intro hstep hreg habs
    exact step_preserves_absent hs st pkt st2 rep h hstep hreg habs
  · exact mapLookup_insert_self st h (newRequest h)

theorem c6_witness :
    getRequest (closeRequest (mapInsert [] "h" (newRequest "h")) "h") "h" =
      none ∧
    getRequest ([] : Registry) "h" = none :=
  ⟨(c6_release_then_absent_until_reregister (mapInsert [] "h" (newRequest "h"))
      "h" handlersStub (Packet.closePkt 2 "z") []
      (Reply.statusRep 2 StatusCode.ok)).1,
    (c6_release_then_absent_until_reregister [] "h" handlersStub
      (Packet.closePkt 2 "z") [] (Reply.statusRep 2 StatusCode.ok)).2.1
      (by decide) (by decide) (by decide)⟩

/-- C7: a close packet always calls release on its handle and replies with a
generic success status, whatever the registry holds; and releasing twice is
the same as releasing once, so a double close is a no-op. -/
theorem c7_close_always_success (hs : Handlers) (st : Registry) (id : Nat)
    (h : String) :
    packetWorkerStep hs st (Packet.closePkt id h) =
      some (closeRequest st h, Reply.statusRep id StatusCode.ok) ∧
    closeRequest (closeRequest st h) h = closeRequest st h := by
  refine ⟨rfl, ?_⟩
  exact closeRequest_absent (closeRequest st h) h
    (mapLookup_closeRequest_self st h)

/-- C8: a session-init packet yields the protocol version-negotiation reply
and returns the registry exactly as it was: no register, lookup or release
happens. -/
theorem c8_init_version_reply_registry_unchanged (hs : Handlers)
    (st : Registry) (v : Nat) :
    packetWorkerStep hs st (Packet.initPkt v) =
      some (st, Reply.versionRep sftpProtocolVersion) := rfl

/-- C9: for open-like packets the handle put in the handle-acknowledgement
reply is the packet's path string itself, and register always returns the
path verbatim as the handle. -/
theorem c9_handle_is_path_verbatim (hs : Handlers) (st : Registry) (id : Nat)
    (p : String) :
    packetWorkerStep hs st (Packet.openPkt id p) =
      some ((nextRequest st (newRequest p)).1, Reply.handleRep id p) ∧
    packetWorkerStep hs st (Packet.opendirPkt id p) =
      some ((nextRequest st (newRequest p)).1, Reply.handleRep id p) ∧
    (nextRequest st (newRequest p)).2 = p :=
  ⟨rfl, rfl, rfl⟩

/-- C10: a path-bearing (non-open, non-close) packet always completes,
registers its synthesized handle — the entry is present after the handler
ran — and the entry then stays in the registry across any successful worker
step other than a close naming that handle. -/
theorem c10_path_packet_registers_persistently (hs : Handlers) (st : Registry)
    (id : Nat) (p : String) (op : PathOp) :
    (packetWorkerStep hs st (Packet.pathPkt id p op)).isSome = true ∧
    (∀ st2 rep,
      packetWorkerStep hs st (Packet.pathPkt id p op) = some (st2, rep) →
      (getRequest st2 p).isSome = true) ∧
    (∀ pkt st2 rep, packetWorkerStep hs st pkt = some (st2, rep) →
      closesHandle pkt p = false → (getRequest st p).isSome = true →
      (getRequest st2 p).isSome = true) := by
  refine ⟨?_, ?_, ?_⟩
  · show (handleDispatch hs (nextRequest st (newRequest p)).1
      (Packet.pathPkt id p op) (nextRequest st (newRequest p)).2).isSome = true
    exact handleDispatch_isSome hs (mapInsert st p (newRequest p))
      (Packet.pathPkt id p op) p (newRequest p)
      (mapLookup_insert_self st p (newRequest p))
  · intro st2 rep hstep
    have hstep2 : handleDispatch hs (mapInsert st p (newRequest p))
        (Packet.pathPkt id p op) p = some (st2, rep) := hstep
    obtain ⟨r, hr, hst2⟩ := handleDispatch_registry hs
      (mapInsert st p (newRequest p)) (Packet.pathPkt id p op) p st2 rep hstep2
    rw [hst2]
    show (mapLookup (mapInsert (mapInsert st p (newRequest p)) p
      (populate r (Packet.pathPkt id p op))) p).isSome = true
    rw [mapLookup_insert_self]
    rfl
  · intro pkt st2 rep hstep hcl hp
    exact step_preserves_present hs st pkt st2 rep p hstep hcl hp

theorem c10_witness :
    (getRequest
      [("/a", populate (newRequest "/a") (Packet.pathPkt 1 "/a" PathOp.cmd))]
      "/a").isSome = true :=
  (c10_path_packet_registers_persistently handlersStub [] 1 "/a"
      PathOp.cmd).2.1
    [("/a", populate (newRequest "/a") (Packet.pathPkt 1 "/a" PathOp.cmd))]
    (Reply.statusRep 1 StatusCode.ok) (by decide)
